import Mathlib

/-!
Verification development for the chatbot repository.

The relevant program parts are shallowly embedded as executable Lean
definitions: the `LanguageModel` service (`src/services/LanguageModel.ts`),
the three API routes (`src/app/api/chat/route.ts`,
`src/app/api/speech-to-text/route.ts`, `src/app/api/text-to-speech/route.ts`),
the no-speech retry logic of the `WebSpeechProcessor` component and of
`AudioProcessor`, and the teardown logic of `AudioProcessor.cleanup` and
`RealTimeAudioProcessor.cleanup`.

Modelling conventions:
* JavaScript `Date` timestamps are natural numbers.
* `Math.random()` draws are explicit parameters.
* Network and LLM calls are parameterised by their outcome.
* The duration / sample-count formulas of the two audio routes are computed
  in exact rational arithmetic; the double-precision computations in the
  source (`len / 32000` threshold comparisons, and
  `Math.floor(22050 * Math.min(text.length * 0.07, 3))`) agree with the
  exact computations at every input, which was checked exhaustively over
  the whole range in which the cap is not yet active.
-/

namespace Chatbot

/-- The `Message` record from `src/types/conversation.ts`:
role, content and timestamp. -/
structure Message where
  role : String
  content : String
  timestamp : Nat
deriving Repr, DecidableEq

/-- Outcome of the `fetch('/api/chat')` call inside
`LanguageModel.callChatAPI`.  `netError` models a rejected fetch, `notOk`
a response with `response.ok` false, `apiFail e` a JSON body with
`success: false` and optional `error` field, `ok r` a success body with
`response` field `r`. -/
inductive FetchOutcome where
  | netError : String → FetchOutcome
  | notOk : FetchOutcome
  | apiFail : Option String → FetchOutcome
  | ok : String → FetchOutcome
deriving Repr, DecidableEq

/-- The JSON request body sent by `LanguageModel.callChatAPI`. -/
structure ChatRequestBody where
  message : String
  conversationHistory : List Message
deriving Repr, DecidableEq

/-- The request body built in `callChatAPI`:
`{ message, conversationHistory: this.conversationHistory.slice(-6) }`.
JavaScript `slice(-6)` on an array of length `L` keeps the last
`min 6 L` elements, which is `drop (L - 6)`. -/
def callChatAPIBody (hist : List Message) (message : String) : ChatRequestBody :=
  { message := message, conversationHistory := hist.drop (hist.length - 6) }

/-- The result of `callChatAPI` as a function of the fetch outcome: a
rejected fetch rethrows, `!response.ok` throws "API request failed",
`!data.success` throws `data.error || 'API returned error'`, and on
success `data.response` is returned. -/
def callChatAPIResult : FetchOutcome → Except String String
  | .netError msg => .error msg
  | .notOk => .error "API request failed"
  | .apiFail e =>
      .error (match e with
        | none => "API returned error"
        | some s => if s = "" then "API returned error" else s)
  | .ok r => .ok r

/-- ASCII lower-casing; models JavaScript `toLowerCase` on the ASCII
range (all keyword lists in `generateFallbackResponse` are ASCII). -/
def asciiLower (c : Char) : Char :=
  if 'A' ≤ c ∧ c ≤ 'Z' then Char.ofNat (c.toNat + 32) else c

/-- Lower-case a whole string. -/
def lowerStr (s : String) : String :=
  String.mk (s.toList.map asciiLower)

/-- JavaScript `String.prototype.includes`: substring containment,
computed on character lists. -/
def strIncludes : List Char → List Char → Bool
  | hay, needle =>
    match hay with
    | [] => needle.isEmpty
    | _ :: t => needle.isPrefixOf hay || strIncludes t needle

/-- `LanguageModel.containsAny`:
`keywords.some(keyword => text.includes(keyword))`. -/
def containsAny (text : String) (keywords : List String) : Bool :=
  keywords.any (fun k => strIncludes text.toList k.toList)

/-- `LanguageModel.generateFallbackResponse`: keyword matching on the
lower-cased input; `rng` models the `Math.floor(Math.random() * n)` draw
used to pick among the canned strings of the matched class
(the source draws with `n = 3`; the draw is modelled as `rng % 3`). -/
def generateFallbackResponse (input : String) (rng : Nat) : String :=
  let lowerInput := lowerStr input
  if containsAny lowerInput ["hello", "hi", "hey", "good morning", "good afternoon", "good evening"] then
    ["Hello! How can I help you today?",
     "Hi there! What can I do for you?",
     "Hey! Nice to meet you. How are you?"].getD (rng % 3) ""
  else if containsAny lowerInput ["name", "who are you", "what are you"] then
    "I\x27m an AI assistant. I\x27m here to help you with questions and have conversations. What would you like to talk about?"
  else if containsAny lowerInput ["how are you", "how are you doing", "how do you do"] then
    ["I\x27m doing great, thanks for asking! How about you?",
     "I\x27m functioning perfectly! How are you feeling today?",
     "I\x27m good! I hope you\x27re having a great day too."].getD (rng % 3) ""
  else if containsAny lowerInput ["thank you", "thanks", "appreciate it"] then
    ["You\x27re welcome! Is there anything else I can help with?",
     "No problem at all! Happy to help.",
     "My pleasure! Let me know if you need anything else."].getD (rng % 3) ""
  else if containsAny lowerInput ["goodbye", "bye", "see you", "take care"] then
    ["Goodbye! It was nice talking with you.",
     "See you later! Have a great day!",
     "Take care! Feel free to come back anytime."].getD (rng % 3) ""
  else
    "That\x27s interesting! Tell me more about that."

/-- Every string `generateFallbackResponse` can return. -/
def fallbackPool : List String :=
  ["Hello! How can I help you today?",
   "Hi there! What can I do for you?",
   "Hey! Nice to meet you. How are you?",
   "I\x27m an AI assistant. I\x27m here to help you with questions and have conversations. What would you like to talk about?",
   "I\x27m doing great, thanks for asking! How about you?",
   "I\x27m functioning perfectly! How are you feeling today?",
   "I\x27m good! I hope you\x27re having a great day too.",
   "You\x27re welcome! Is there anything else I can help with?",
   "No problem at all! Happy to help.",
   "My pleasure! Let me know if you need anything else.",
   "Goodbye! It was nice talking with you.",
   "See you later! Have a great day!",
   "Take care! Feel free to come back anytime.",
   "That\x27s interesting! Tell me more about that."]

/-- The state of a `LanguageModel` instance: its private
`conversationHistory` array. -/
structure LMState where
  conversationHistory : List Message
deriving Repr, DecidableEq

/-- A fresh `LanguageModel` (`conversationHistory = []`). -/
def initialLM : LMState := ⟨[]⟩

/-- `LanguageModel.getConversationHistory` returns a copy of the
history and does not change the state. -/
def getConversationHistory (st : LMState) : List Message :=
  st.conversationHistory

/-- `LanguageModel.clearHistory` resets the history to `[]`. -/
def clearHistory (_st : LMState) : LMState := ⟨[]⟩

/-- One call of `LanguageModel.processUrduText`: the user message is
pushed onto the history, the chat request is issued via `callChatAPI`
(its body is built from the history after that push), on success the
assistant reply is pushed and returned, and on any failure the `catch`
returns `generateFallbackResponse` without pushing an assistant message.
`now1` and `now2` model the two `new Date()` draws, `outcome` the fetch
outcome and `rng` the random draw of the fallback.  The function returns
the new state, the returned string, and the request body that was issued
to `/api/chat`. -/
def processUrduText (st : LMState) (userInput : String) (now1 now2 : Nat)
    (outcome : FetchOutcome) (rng : Nat) : LMState × String × ChatRequestBody :=
  let hist1 := st.conversationHistory ++ [⟨"user", userInput, now1⟩]
  let body := callChatAPIBody hist1 userInput
  match callChatAPIResult outcome with
  | .ok resp => (⟨hist1 ++ [⟨"assistant", resp, now2⟩]⟩, resp, body)
  | .error _ => (⟨hist1⟩, generateFallbackResponse userInput rng, body)

/-- The inputs of one `processUrduText` call. -/
structure CallSpec where
  input : String
  now1 : Nat
  now2 : Nat
  outcome : FetchOutcome
  rng : Nat
deriving Repr

/-- Run a sequence of `processUrduText` calls. -/
def runCalls : LMState → List CallSpec → LMState
  | st, [] => st
  | st, c :: cs => runCalls (processUrduText st c.input c.now1 c.now2 c.outcome c.rng).1 cs

/-- Each `processUrduText` call grows the history by at least one record. -/
theorem processUrduText_length_ge (st : LMState) (input : String) (now1 now2 : Nat)
    (outcome : FetchOutcome) (rng : Nat) :
    st.conversationHistory.length + 1 ≤
      (processUrduText st input now1 now2 outcome rng).1.conversationHistory.length := by
  cases outcome <;> simp [processUrduText, callChatAPIResult]

/-- Running `cs` calls grows the history by at least `cs.length`. -/
theorem runCalls_length_ge (cs : List CallSpec) (st : LMState) :
    st.conversationHistory.length + cs.length ≤
      (runCalls st cs).conversationHistory.length := by
  induction cs generalizing st with
  | nil => simp [runCalls]
  | cons c cs ih =>
    have h1 := processUrduText_length_ge st c.input c.now1 c.now2 c.outcome c.rng
    have h2 := ih (processUrduText st c.input c.now1 c.now2 c.outcome c.rng).1
    simp only [runCalls, List.length_cons]
    omega

/-- C2: the claim that the stored conversation history is bounded by a
fixed `B` across all `processUrduText` sequences is false: every call
appends at least one record and nothing ever removes records, so no
bound exists.  This proves the negation of the claim. -/
theorem history_not_bounded :
    ¬ ∃ B : Nat, ∀ calls : List CallSpec,
      (runCalls initialLM calls).conversationHistory.length ≤ B := by
  rintro ⟨B, hB⟩
  have h := hB (List.replicate (B + 1) ⟨"x", 0, 0, .ok "r", 0⟩)
  have h2 := runCalls_length_ge (List.replicate (B + 1) ⟨"x", 0, 0, .ok "r", 0⟩) initialLM
  have h0 : initialLM.conversationHistory.length = 0 := rfl
  simp only [List.length_replicate] at h2
  omega

/-- C2 (amended): the stored history is unbounded, but the history that
`LanguageModel` sends with each chat request is trimmed: the
`conversationHistory` field of every request body built by `callChatAPI`
holds at most 6 records. -/
theorem request_history_bounded (hist : List Message) (msg : String) :
    (callChatAPIBody hist msg).conversationHistory.length ≤ 6 := by
  simp only [callChatAPIBody, List.length_drop]
  omega

/-- C3: every chat request issued by `processUrduText` carries the user
input as its `message` field, and its `conversationHistory` field is
exactly the last 6 messages of the history stored at the moment of the
call (all of them when fewer than 6 exist), in stored order: it is a
suffix of the stored history of length `min 6` its length. -/
theorem chat_request_trimmed (st : LMState) (input : String) (now1 now2 : Nat)
    (outcome : FetchOutcome) (rng : Nat) :
    (processUrduText st input now1 now2 outcome rng).2.2.message = input ∧
    (processUrduText st input now1 now2 outcome rng).2.2.conversationHistory <:+
      (st.conversationHistory ++ [⟨"user", input, now1⟩]) ∧
    (processUrduText st input now1 now2 outcome rng).2.2.conversationHistory.length =
      min 6 (st.conversationHistory ++ [(⟨"user", input, now1⟩ : Message)]).length := by
  have hbody : (processUrduText st input now1 now2 outcome rng).2.2 =
      callChatAPIBody (st.conversationHistory ++ [⟨"user", input, now1⟩]) input := by
    cases outcome <;> simp [processUrduText, callChatAPIResult]
  refine ⟨by rw [hbody]; rfl, ?_, ?_⟩
  · rw [hbody]
    exact List.drop_suffix _ _
  · rw [hbody]
    simp only [callChatAPIBody, List.length_drop]
    omega

/-- C6: the stored history is append-only until cleared: `processUrduText`
leaves the previously stored records unchanged in place and order (the old
history is a prefix of the new one), `getConversationHistory` does not
change the stored history, and `clearHistory` resets it to `[]`. -/
theorem history_append_only (st : LMState) (input : String) (now1 now2 : Nat)
    (outcome : FetchOutcome) (rng : Nat) :
    st.conversationHistory <+:
      (processUrduText st input now1 now2 outcome rng).1.conversationHistory ∧
    getConversationHistory st = st.conversationHistory ∧
    (clearHistory st).conversationHistory = [] := by
  refine ⟨?_, rfl, rfl⟩
  cases outcome <;>
    simp only [processUrduText, callChatAPIResult] <;>
    first
      | exact List.prefix_append _ _
      | (rw [List.append_assoc]; exact List.prefix_append _ _)

/-- C7: `processUrduText` never propagates a chat-API failure: whenever
the fetch outcome is anything other than a success, the returned string is
the locally generated keyword fallback (and that fallback is always one of
the canned local strings), and no assistant message is pushed. -/
theorem process_catches_errors (st : LMState) (input : String) (now1 now2 : Nat)
    (outcome : FetchOutcome) (rng : Nat) (hfail : ∀ r, outcome ≠ .ok r) :
    (processUrduText st input now1 now2 outcome rng).2.1 =
      generateFallbackResponse input rng ∧
    generateFallbackResponse input rng ∈ fallbackPool ∧
    (processUrduText st input now1 now2 outcome rng).1.conversationHistory =
      st.conversationHistory ++ [⟨"user", input, now1⟩] := by
  have hmem : generateFallbackResponse input rng ∈ fallbackPool := by
    have h3 : rng % 3 = 0 ∨ rng % 3 = 1 ∨ rng % 3 = 2 := by omega
    simp only [generateFallbackResponse, fallbackPool]
    split
    · rcases h3 with h | h | h <;> simp [h]
    · split
      · simp
      · split
        · rcases h3 with h | h | h <;> simp [h]
        · split
          · rcases h3 with h | h | h <;> simp [h]
          · split
            · rcases h3 with h | h | h <;> simp [h]
            · simp
  refine ⟨?_, hmem, ?_⟩ <;>
    cases outcome <;> first
      | (exact absurd rfl (hfail _))
      | simp [processUrduText, callChatAPIResult]

/-- Witness for C7 at a concrete failing outcome. -/
theorem process_catches_errors_witness :
    (processUrduText initialLM "hello there" 0 0 .notOk 0).2.1 =
      generateFallbackResponse "hello there" 0 ∧
    generateFallbackResponse "hello there" 0 ∈ fallbackPool ∧
    (processUrduText initialLM "hello there" 0 0 .notOk 0).1.conversationHistory =
      initialLM.conversationHistory ++ [⟨"user", "hello there", 0⟩] :=
  process_catches_errors initialLM "hello there" 0 0 .notOk 0 (by intro r h; cases h)

/-! ## POST /api/speech-to-text (`src/app/api/speech-to-text/route.ts`) -/

/-- The `urduType` form field, `'roman' | 'pure'` (missing defaults to
roman at the parse site). -/
inductive UrduType where
  | roman
  | pure
deriving Repr, DecidableEq

/-- The `simulatedTranscriptions` lists of the fallback branch of the
route (15 canned transcripts per urdu type). -/
def simulatedTranscriptions : UrduType → List String
  | .roman =>
    ["Aap kaise hain?",
     "Mujhe Urdu mein baat karni hai",
     "Yeh kitne ka hai?",
     "Main aaj bahut khush hoon",
     "Kya aap mujhe madad kar sakte hain?",
     "Namaste, kya haal chaal hai?",
     "Main aap se baat karna chahta hoon",
     "Yeh bohat achha hai",
     "Shukriya bahut bahut",
     "Main theek hoon, aap sunaiye?",
     "Aap ka din kaisa guzra?",
     "Kya aaj koi khaas baat hai?",
     "Mujhe thoda help chahiye",
     "Aap se mil kar khushi hui",
     "Main abhi aaya hoon"]
  | .pure =>
    ["آپ کیسے ہیں؟",
     "مجھے اردو میں بات کرنی ہے",
     "یہ کتنے کا ہے؟",
     "میں آج بہت خوش ہوں",
     "کیا آپ مجھے مدد کر سکتے ہیں؟",
     "نمستے، کیا حال چال ہے؟",
     "میں آپ سے بات کرنا چاہتا ہوں",
     "یہ بہت اچھا ہے",
     "شکریہ بہت بہت",
     "میں ٹھیک ہوں، آپ سنائیے؟",
     "آپ کا دن کیسے گزرا؟",
     "کیا آج کوئی خاص بات ہے؟",
     "مجھے تھوڑی مدد چاہیے",
     "آپ سے مل کر خوشی ہوئی",
     "میں ابھی آیا ہوں"]

/-- `processAudioWithWebSpeechAPI`: canned transcript selected by
duration thresholds on `audioBuffer.length / 32000` seconds.  The
double-precision comparisons `len / 32000 < k` coincide exactly with
`len < k * 32000` for every natural `len`.  The `try` body cannot throw,
so the `catch` branch returning null is dead and the function always
returns a transcript. -/
def processAudioWithWebSpeechAPI (len : Nat) (urduType : UrduType) : Option String :=
  if len < 32000 then
    some (if urduType = .roman then "Hello" else "ہیلو")
  else if len < 64000 then
    some (if urduType = .roman then "Aap kaise hain?" else "آپ کیسے ہیں؟")
  else if len < 96000 then
    some (if urduType = .roman then "Mujhe Urdu mein baat karni hai" else "مجھے اردو میں بات کرنی ہے")
  else
    some (if urduType = .roman then "Main aaj bahut khush hoon" else "میں آج بہت خوش ہوں")

/-- The body of a success response of the speech-to-text route (the
random `confidence` field is unconstrained by the claims and omitted). -/
structure STTSuccess where
  text : String
  urduType : UrduType
  method : String
deriving Repr, DecidableEq

/-- The response of the speech-to-text route: 400 when no audio file is
present, otherwise a success body. -/
inductive STTResult where
  | ok : STTSuccess → STTResult
  | badRequest : STTResult
deriving Repr, DecidableEq

/-- `POST /api/speech-to-text` on a request whose audio file is modelled
by its byte length (both branches of the route read the uploaded buffer
only through `buffer.length`): no file gives a 400; otherwise the
`processAudioWithWebSpeechAPI` transcript is returned with method
`web_speech_api` when non-null, and the buffer-length-modulo entry of
`simulatedTranscriptions` with method `simulated` when null. -/
def postSpeechToText (audio : Option Nat) (urduType : UrduType) : STTResult :=
  match audio with
  | none => .badRequest
  | some len =>
    match processAudioWithWebSpeechAPI len urduType with
    | some t => .ok ⟨t, urduType, "web_speech_api"⟩
    | none =>
      .ok ⟨(simulatedTranscriptions urduType).getD
             (len % (simulatedTranscriptions urduType).length) "",
           urduType, "simulated"⟩

/-- C1 (counterexample): at a 0-byte audio upload with urduType roman the
route returns the transcript "Hello", while selection by buffer-length
modulo would give entry 0 of the canned list, "Aap kaise hain?".  So the
transcript is not the buffer-length-modulo entry. -/
theorem stt_modulo_counterexample :
    postSpeechToText (some 0) .roman = .ok ⟨"Hello", .roman, "web_speech_api"⟩ ∧
    (simulatedTranscriptions .roman).getD
        (0 % (simulatedTranscriptions .roman).length) "" = "Aap kaise hain?" ∧
    ("Hello" : String) ≠ "Aap kaise hain?" := by
  refine ⟨rfl, rfl, ?_⟩
  decide

/-- C1 (amended): for every request carrying an audio file, the returned
transcript is the canned transcript selected by duration thresholds on
(byte length / 32000) — the non-null result of
`processAudioWithWebSpeechAPI` — with method `web_speech_api`; the
buffer-length-modulo fallback is unreachable. -/
theorem stt_transcript_by_duration (len : Nat) (urduType : UrduType) :
    postSpeechToText (some len) urduType =
      .ok ⟨(processAudioWithWebSpeechAPI len urduType).getD "", urduType, "web_speech_api"⟩ := by
  cases urduType <;>
    simp only [postSpeechToText, processAudioWithWebSpeechAPI] <;>
    split_ifs <;>
    rfl

/-- C9: the simulated fallback branch is unreachable for every request
that carries an audio file: `processAudioWithWebSpeechAPI` always returns
a non-null, non-empty transcript, and every success response reports
method `web_speech_api` (never `simulated`). -/
theorem stt_fallback_unreachable (len : Nat) (urduType : UrduType) :
    (∃ t, processAudioWithWebSpeechAPI len urduType = some t ∧ t ≠ "") ∧
    (∃ r, postSpeechToText (some len) urduType = .ok r ∧
      r.method = "web_speech_api" ∧ r.method ≠ "simulated") := by
  cases urduType <;>
    simp only [postSpeechToText, processAudioWithWebSpeechAPI] <;>
    split_ifs <;>
    exact ⟨⟨_, rfl, by decide⟩, ⟨_, rfl, rfl, by decide⟩⟩

/-! ## POST /api/chat (`src/app/api/chat/route.ts`) -/

/-- The fixed apology sentence of the chat route. -/
def apologyResponse : String :=
  "Sorry, I\x27m having trouble responding right now. Could you please try again?"

/-- Whitespace as trimmed by JavaScript `String.prototype.trim`,
modelled on the ASCII whitespace characters (the full JavaScript set
also holds Unicode space characters, which do not occur in the strings
of this program). -/
def isJsWhitespace (c : Char) : Bool :=
  c = ' ' || c = '\t' || c = '\n' || c = '\r' || c = '\x0b' || c = '\x0c'

/-- JavaScript `String.prototype.trim` over the modelled whitespace
set: leading and trailing whitespace removed. -/
def jsTrim (s : String) : String :=
  String.mk (((s.toList.dropWhile isJsWhitespace).reverse.dropWhile isJsWhitespace).reverse)

/-- The `response` string computed on the success path of the chat route:
`completion.choices[0]?.message?.content || apology`, then `.trim()`.
`none` models a missing content (`undefined`); the `||` also replaces an
empty string, the only falsy string. -/
def chatResponseText (content : Option String) : String :=
  jsTrim (match content with
    | none => apologyResponse
    | some c => if c = "" then apologyResponse else c)

/-- The response of the chat route. -/
inductive ChatResult where
  | ok : String → ChatResult
  | badRequest : ChatResult
  | serverError : ChatResult
deriving Repr, DecidableEq

/-- `POST /api/chat`: a falsy `message` gives a 400; a throwing
`ZAI.create`/completion call gives a 500 with `success: false`; otherwise
a success body whose `response` field is the trimmed content-or-apology.
`llm` is the outcome of the LLM call: `.error` models a thrown exception,
`.ok content` the optional message content of the first choice.  (The
conversation-history context only feeds the prompt and does not affect
the response shape.) -/
def postChat (message : Option String) (llm : Except Unit (Option String)) : ChatResult :=
  match message with
  | none => .badRequest
  | some m =>
    if m = "" then .badRequest
    else
      match llm with
      | .error _ => .serverError
      | .ok content => .ok (chatResponseText content)

/-- The head of `dropWhile p l` never satisfies `p`. -/
theorem head_dropWhile_false {α} (p : α → Bool) (l : List α) (a : α)
    (h : (l.dropWhile p).head? = some a) : p a = false := by
  induction l with
  | nil => simp [List.dropWhile_nil] at h
  | cons x t ih =>
    rw [List.dropWhile_cons] at h
    split at h
    · exact ih h
    · next hx =>
      simp only [List.head?_cons, Option.some.injEq] at h
      subst h
      simpa using hx

/-- A string all of whose trimmed forms are empty is all whitespace. -/
theorem jsTrim_eq_empty_all_ws (s : String) (h : jsTrim s = "") :
    s.toList.all isJsWhitespace := by
  have hl : ((s.toList.dropWhile isJsWhitespace).reverse.dropWhile isJsWhitespace).reverse =
      ([] : List Char) := congrArg String.toList h
  rw [List.reverse_eq_nil_iff, List.dropWhile_eq_nil_iff] at hl
  have hdrop : ∀ x ∈ s.toList.dropWhile isJsWhitespace, isJsWhitespace x := by
    intro x hx
    exact hl x (List.mem_reverse.mpr hx)
  rw [List.all_eq_true]
  intro x hx
  rw [← List.takeWhile_append_dropWhile (p := isJsWhitespace) (l := s.toList),
    List.mem_append] at hx
  rcases hx with hx | hx
  · exact List.mem_takeWhile_imp hx
  · exact hdrop x hx

/-- The result of `jsTrim` has no leading and no trailing whitespace. -/
theorem jsTrim_no_edge_ws (s : String) :
    (∀ a, (jsTrim s).toList.head? = some a → isJsWhitespace a = false) ∧
    (∀ a, (jsTrim s).toList.getLast? = some a → isJsWhitespace a = false) := by
  constructor
  · intro a ha
    have h1 : ((s.toList.dropWhile isJsWhitespace).reverse.dropWhile
        isJsWhitespace).getLast? = some a := by
      rw [← List.head?_reverse]
      exact ha
    obtain ⟨t, ht⟩ := List.dropWhile_suffix (l := (s.toList.dropWhile isJsWhitespace).reverse)
      (p := isJsWhitespace)
    have h2 : (s.toList.dropWhile isJsWhitespace).reverse.getLast? = some a := by
      rw [← ht, List.getLast?_append, h1]
      rfl
    rw [List.getLast?_reverse] at h2
    exact head_dropWhile_false _ _ _ h2
  · intro a ha
    have ha' : (((s.toList.dropWhile isJsWhitespace).reverse.dropWhile
        isJsWhitespace).reverse).getLast? = some a := ha
    rw [List.getLast?_reverse] at ha'
    exact head_dropWhile_false _ _ _ ha'

/-- C10 (counterexample): when the LLM content is the nonempty
whitespace-only string " ", the chat route returns a success response
whose `response` field is the empty string — so the response field of a
success response can be empty. -/
theorem chat_empty_response_counterexample :
    postChat (some "hi") (.ok (some " ")) = .ok "" := by
  decide

/-- C10 (amended): on every success response of the chat route the
`response` field carries no leading or trailing whitespace, and whenever
the LLM completion yields no message content (missing or empty) the route
returns the fixed apology sentence; however the response is not never
empty: it is empty exactly when the content was a nonempty all-whitespace
string. -/
theorem chat_response_trimmed (m : String) (content : Option String) (hm : m ≠ "") :
    ∃ r, postChat (some m) (.ok content) = .ok r ∧
      (∀ a, r.toList.head? = some a → isJsWhitespace a = false) ∧
      (∀ a, r.toList.getLast? = some a → isJsWhitespace a = false) ∧
      ((content = none ∨ content = some "") → r = apologyResponse) ∧
      (r = "" → ∃ c, content = some c ∧ c ≠ "" ∧ c.toList.all isJsWhitespace) := by
  refine ⟨chatResponseText content, ?_, ?_, ?_, ?_, ?_⟩
  · simp [postChat, hm]
  · exact (jsTrim_no_edge_ws _).1
  · exact (jsTrim_no_edge_ws _).2
  · rintro (rfl | rfl) <;> · show jsTrim apologyResponse = apologyResponse; decide
  · intro hempty
    rcases content with _ | c
    · have hempty' : jsTrim apologyResponse = "" := hempty
      have := jsTrim_eq_empty_all_ws apologyResponse hempty'
      exact absurd this (by decide)
    · by_cases hce : c = ""
      · subst hce
        have hempty' : jsTrim apologyResponse = "" := hempty
        have := jsTrim_eq_empty_all_ws apologyResponse hempty'
        exact absurd this (by decide)
      · refine ⟨c, rfl, hce, ?_⟩
        simp only [chatResponseText, if_neg hce] at hempty
        exact jsTrim_eq_empty_all_ws c hempty

/-- Witness for C10 (amended) at a concrete message and content. -/
theorem chat_response_trimmed_witness :
    ∃ r, postChat (some "hi") (.ok (some "Fine.")) = .ok r ∧
      (∀ a, r.toList.head? = some a → isJsWhitespace a = false) ∧
      (∀ a, r.toList.getLast? = some a → isJsWhitespace a = false) ∧
      ((some "Fine." = none ∨ some "Fine." = some "") → r = apologyResponse) ∧
      (r = "" → ∃ c, some "Fine." = some c ∧ c ≠ "" ∧ c.toList.all isJsWhitespace) :=
  chat_response_trimmed "hi" (some "Fine.") (by decide)

/-! ## POST /api/text-to-speech (`src/app/api/text-to-speech/route.ts`) -/

/-- The sample count of `generateAudioWithWebSpeechAPI`:
`Math.floor(sampleRate * Math.min(text.length * 0.07, 3))` with
`sampleRate = 22050`, computed in exact arithmetic
(`min (7L) 300 / 100` of `22050`); the double-precision computation of
the source agrees with this at every length. -/
def ttsSamples (L : Nat) : Nat :=
  22050 * min (7 * L) 300 / 100

/-- Little-endian bytes written by `DataView.setUint16(_, v, true)`. -/
def le16 (v : Nat) : List Nat :=
  [v % 256, v / 256 % 256]

/-- Little-endian bytes written by `DataView.setUint32(_, v, true)`. -/
def le32 (v : Nat) : List Nat :=
  [v % 256, v / 256 % 256, v / 65536 % 256, v / 16777216 % 256]

/-- `writeString`: the `charCodeAt` codes of a tag string. -/
def strBytes (s : String) : List Nat :=
  s.toList.map Char.toNat

/-- `DataView.setInt16(_, v, true)`: the value wrapped to 16 bits,
little endian. -/
def int16le (v : Int) : List Nat :=
  [(v % 65536).toNat % 256, (v % 65536).toNat / 256]

/-- The 44-byte WAV header written by `generateAudioWithWebSpeechAPI`
for `samples` samples: RIFF size `36 + samples*2`, PCM format 1,
1 channel, sample rate 22050, byte rate 44100, block align 2,
16 bits per sample, data-chunk size `samples*2`, in the exact
offset order of the `writeString`/`setUint` calls of the source. -/
def wavHeader (samples : Nat) : List Nat :=
  strBytes "RIFF" ++ le32 (36 + samples * 2) ++ strBytes "WAVE" ++ strBytes "fmt " ++
    le32 16 ++ le16 1 ++ le16 1 ++ le32 22050 ++ le32 (22050 * 2) ++ le16 2 ++ le16 16 ++
    strBytes "data" ++ le32 (samples * 2)

/-- The full WAV byte buffer built by `generateAudioWithWebSpeechAPI`
for a text of length `L`: the header followed by one 16-bit
little-endian sample per index.  `sampleVal i` abstracts the
floating-point sample synthesis at index `i` (a clamped sum of sines
plus noise); the claims constrain only the byte count and the header,
never the sample values. -/
def ttsWavBytes (L : Nat) (sampleVal : Nat → Int) : List Nat :=
  wavHeader (ttsSamples L) ++ (List.range (ttsSamples L)).flatMap (fun i => int16le (sampleVal i))

/-- The base64 alphabet used by `btoa`. -/
def b64Chars : List Char :=
  "ABCDEFGHIJKLMNOPQRSTUVWXYZabcdefghijklmnopqrstuvwxyz0123456789+/".toList

/-- The base64 digit of a 6-bit value. -/
def b64Enc (n : Nat) : Char :=
  b64Chars.getD n 'A'

/-- The 6-bit value of a base64 digit. -/
def b64Dec (c : Char) : Nat :=
  b64Chars.indexOf c

/-- `btoa` of a byte list: base64 with `=` padding. -/
def base64Encode : List Nat → List Char
  | [] => []
  | [b1] => [b64Enc (b1 / 4), b64Enc (b1 % 4 * 16), '=', '=']
  | [b1, b2] => [b64Enc (b1 / 4), b64Enc (b1 % 4 * 16 + b2 / 16), b64Enc (b2 % 16 * 4), '=']
  | b1 :: b2 :: b3 :: rest =>
      b64Enc (b1 / 4) :: b64Enc (b1 % 4 * 16 + b2 / 16) :: b64Enc (b2 % 16 * 4 + b3 / 64) ::
        b64Enc (b3 % 64) :: base64Encode rest

/-- base64 decoding (`atob`), the inverse of `base64Encode`. -/
def base64Decode : List Char → List Nat
  | c1 :: c2 :: c3 :: c4 :: rest =>
      if c3 = '=' then
        [b64Dec c1 * 4 + b64Dec c2 / 16]
      else if c4 = '=' then
        [b64Dec c1 * 4 + b64Dec c2 / 16, b64Dec c2 % 16 * 16 + b64Dec c3 / 4]
      else
        (b64Dec c1 * 4 + b64Dec c2 / 16) :: (b64Dec c2 % 16 * 16 + b64Dec c3 / 4) ::
          (b64Dec c3 % 4 * 64 + b64Dec c4) :: base64Decode rest
  | _ => []

/-- Decoding a base64 digit of a 6-bit value gives the value back. -/
theorem b64_dec_enc : ∀ v, v < 64 → b64Dec (b64Enc v) = v := by
  decide

/-- Base64 digits are never the padding character. -/
theorem b64Enc_ne_pad : ∀ v, v < 64 → b64Enc v ≠ '=' := by
  decide

/-- Base64 decoding inverts encoding on byte lists. -/
theorem base64_roundtrip : ∀ l : List Nat, (∀ b ∈ l, b < 256) →
    base64Decode (base64Encode l) = l
  | [], _ => rfl
  | [b1], h => by
    have hb1 : b1 < 256 := h b1 (by simp)
    simp only [base64Encode, base64Decode, if_true]
    rw [b64_dec_enc (b1 / 4) (by omega), b64_dec_enc (b1 % 4 * 16) (by omega)]
    simp only [List.cons.injEq, and_true]
    omega
  | [b1, b2], h => by
    have hb1 : b1 < 256 := h b1 (by simp)
    have hb2 : b2 < 256 := h b2 (by simp)
    simp only [base64Encode, base64Decode]
    rw [if_neg (b64Enc_ne_pad (b2 % 16 * 4) (by omega)), if_true]
    rw [b64_dec_enc (b1 / 4) (by omega), b64_dec_enc (b1 % 4 * 16 + b2 / 16) (by omega),
      b64_dec_enc (b2 % 16 * 4) (by omega)]
    simp only [List.cons.injEq, and_true]
    omega
  | b1 :: b2 :: b3 :: rest, h => by
    have hb1 : b1 < 256 := h b1 (by simp)
    have hb2 : b2 < 256 := h b2 (by simp)
    have hb3 : b3 < 256 := h b3 (by simp)
    have ih := base64_roundtrip rest (fun b hb =>
      h b (List.mem_cons_of_mem _ (List.mem_cons_of_mem _ (List.mem_cons_of_mem _ hb))))
    simp only [base64Encode, base64Decode]
    rw [if_neg (b64Enc_ne_pad (b2 % 16 * 4 + b3 / 64) (by omega)),
      if_neg (b64Enc_ne_pad (b3 % 64) (by omega))]
    rw [b64_dec_enc (b1 / 4) (by omega), b64_dec_enc (b1 % 4 * 16 + b2 / 16) (by omega),
      b64_dec_enc (b2 % 16 * 4 + b3 / 64) (by omega), b64_dec_enc (b3 % 64) (by omega)]
    rw [ih]
    simp only [List.cons.injEq]
    refine ⟨by omega, by omega, by omega, trivial⟩

/-- The body of a success response of the text-to-speech route (the
`urduText` field produced by `convertRomanToUrdu` and the timestamp-based
`audioUrl` field are not constrained by any claim and are left out of the
model). -/
structure TTSOk where
  audioBase64 : List Char
  text : String
  method : String

/-- The response of the text-to-speech route. -/
inductive TTSResult where
  | ok : TTSOk → TTSResult
  | badRequest : TTSResult

/-- `POST /api/text-to-speech`: a falsy `text` gives a 400; otherwise
the `generateAudioWithWebSpeechAPI` branch cannot throw (its body is
arithmetic and `btoa`), so the route always answers from that branch
with method `web_speech_api`, and the `enhanced_simulated` fallback is
dead code. -/
def postTextToSpeech (text : String) (sampleVal : Nat → Int) : TTSResult :=
  if text = "" then .badRequest
  else .ok ⟨base64Encode (ttsWavBytes text.length sampleVal), text, "web_speech_api"⟩

/-- Read back a little-endian unsigned 16-bit field at byte offset
`off`. -/
def readU16 (l : List Nat) (off : Nat) : Nat :=
  l.getD off 0 + 256 * l.getD (off + 1) 0

/-- Read back a little-endian unsigned 32-bit field at byte offset
`off`. -/
def readU32 (l : List Nat) (off : Nat) : Nat :=
  l.getD off 0 + 256 * l.getD (off + 1) 0 + 65536 * l.getD (off + 2) 0 +
    16777216 * l.getD (off + 3) 0

/-- The WAV header in cons normal form. -/
theorem wavHeader_eq (n : Nat) : wavHeader n =
    [82, 73, 70, 70,
     (36 + n * 2) % 256, (36 + n * 2) / 256 % 256,
     (36 + n * 2) / 65536 % 256, (36 + n * 2) / 16777216 % 256,
     87, 65, 86, 69,
     102, 109, 116, 32,
     16, 0, 0, 0,
     1, 0,
     1, 0,
     34, 86, 0, 0,
     68, 172, 0, 0,
     2, 0,
     16, 0,
     100, 97, 116, 97,
     n * 2 % 256, n * 2 / 256 % 256, n * 2 / 65536 % 256, n * 2 / 16777216 % 256] := rfl

/-- All header bytes are bytes. -/
theorem wavHeader_lt (n : Nat) : ∀ b ∈ wavHeader n, b < 256 := by
  intro b hb
  rw [wavHeader_eq] at hb
  simp only [List.mem_cons, List.not_mem_nil, or_false] at hb
  rcases hb with rfl | rfl | rfl | rfl | rfl | rfl | rfl | rfl | rfl | rfl | rfl | rfl |
    rfl | rfl | rfl | rfl | rfl | rfl | rfl | rfl | rfl | rfl | rfl | rfl | rfl | rfl |
    rfl | rfl | rfl | rfl | rfl | rfl | rfl | rfl | rfl | rfl | rfl | rfl | rfl | rfl |
    rfl | rfl | rfl | rfl <;> omega

/-- All sample bytes are bytes. -/
theorem int16le_lt (v : Int) : ∀ b ∈ int16le v, b < 256 := by
  intro b hb
  have h0 : (0 : Int) ≤ v % 65536 := Int.emod_nonneg v (by omega)
  have h1 : v % 65536 < 65536 := Int.emod_lt_of_pos v (by omega)
  have h2 : (v % 65536).toNat < 65536 := by omega
  simp only [int16le, List.mem_cons, List.not_mem_nil, or_false] at hb
  rcases hb with rfl | rfl <;> omega

/-- Every byte of the WAV buffer is below 256. -/
theorem ttsWavBytes_lt (L : Nat) (sv : Nat → Int) : ∀ b ∈ ttsWavBytes L sv, b < 256 := by
  intro b hb
  rw [ttsWavBytes, List.mem_append] at hb
  rcases hb with hb | hb
  · exact wavHeader_lt _ b hb
  · obtain ⟨i, _, hbi⟩ := List.mem_flatMap.mp hb
    exact int16le_lt _ b hbi

/-- The sample section holds two bytes per sample index. -/
theorem flatMap_int16le_length (f : Nat → Int) :
    ∀ l : List Nat, (l.flatMap fun i => int16le (f i)).length = 2 * l.length
  | [] => rfl
  | x :: t => by
    rw [List.flatMap_cons, List.length_append, flatMap_int16le_length f t]
    show 2 + 2 * t.length = 2 * (t.length + 1)
    omega

/-- The byte length of the WAV buffer is `44 + 2 * samples`. -/
theorem ttsWavBytes_length (L : Nat) (sv : Nat → Int) :
    (ttsWavBytes L sv).length = 44 + 2 * ttsSamples L := by
  rw [ttsWavBytes, List.length_append, wavHeader_eq, flatMap_int16le_length sv (List.range _),
    List.length_range]
  simp

/-- The sample count is capped at `floor(22050 * 3)`. -/
theorem ttsSamples_le (L : Nat) : ttsSamples L ≤ 66150 := by
  unfold ttsSamples
  have h : min (7 * L) 300 ≤ 300 := min_le_right _ _
  omega

/-- Reading back the RIFF-size field at offset 4. -/
theorem readU32_wav_4 (n : Nat) (t : List Nat) (hn : n ≤ 66150) :
    readU32 (wavHeader n ++ t) 4 = 36 + 2 * n := by
  rw [wavHeader_eq]
  show (36 + n * 2) % 256 + 256 * ((36 + n * 2) / 256 % 256) +
      65536 * ((36 + n * 2) / 65536 % 256) +
      16777216 * ((36 + n * 2) / 16777216 % 256) = 36 + 2 * n
  omega

/-- Reading back the data-chunk-size field at offset 40. -/
theorem readU32_wav_40 (n : Nat) (t : List Nat) (hn : n ≤ 66150) :
    readU32 (wavHeader n ++ t) 40 = 2 * n := by
  rw [wavHeader_eq]
  show n * 2 % 256 + 256 * (n * 2 / 256 % 256) +
      65536 * (n * 2 / 65536 % 256) +
      16777216 * (n * 2 / 16777216 % 256) = 2 * n
  omega

/-- Reading back the PCM format code at offset 20. -/
theorem readU16_wav_20 (n : Nat) (t : List Nat) : readU16 (wavHeader n ++ t) 20 = 1 := by
  rw [wavHeader_eq]
  rfl

/-- Reading back the channel count at offset 22. -/
theorem readU16_wav_22 (n : Nat) (t : List Nat) : readU16 (wavHeader n ++ t) 22 = 1 := by
  rw [wavHeader_eq]
  rfl

/-- Reading back the sample rate at offset 24. -/
theorem readU32_wav_24 (n : Nat) (t : List Nat) : readU32 (wavHeader n ++ t) 24 = 22050 := by
  rw [wavHeader_eq]
  rfl

/-- Reading back the bits-per-sample field at offset 34. -/
theorem readU16_wav_34 (n : Nat) (t : List Nat) : readU16 (wavHeader n ++ t) 34 = 16 := by
  rw [wavHeader_eq]
  rfl

/-- The RIFF tag at offset 0. -/
theorem take4_wav (n : Nat) (t : List Nat) :
    (wavHeader n ++ t).take 4 = strBytes "RIFF" := by
  rw [wavHeader_eq]
  rfl

/-- The WAVE tag at offset 8. -/
theorem drop8_take4_wav (n : Nat) (t : List Nat) :
    ((wavHeader n ++ t).drop 8).take 4 = strBytes "WAVE" := by
  rw [wavHeader_eq]
  rfl

/-- C4: for every non-empty text the text-to-speech route returns a
success response whose `audioBase64` field decodes to exactly the WAV
buffer of the source, of `44 + 2*n` bytes where
`n = floor(22050 * min(0.07 * length(text), 3))`, and whose 44-byte
header declares the RIFF and WAVE tags, PCM format code 1, 1 channel,
sample rate 22050, 16 bits per sample, RIFF size `36 + 2*n` and
data-chunk size `2*n`. -/
theorem tts_wav_shape (text : String) (sampleVal : Nat → Int) (h : text ≠ "") :
    ∃ r, postTextToSpeech text sampleVal = .ok r ∧
      base64Decode r.audioBase64 = ttsWavBytes text.length sampleVal ∧
      (base64Decode r.audioBase64).length =
        44 + 2 * (22050 * min (7 * text.length) 300 / 100) ∧
      (base64Decode r.audioBase64).take 4 = strBytes "RIFF" ∧
      ((base64Decode r.audioBase64).drop 8).take 4 = strBytes "WAVE" ∧
      readU32 (base64Decode r.audioBase64) 4 =
        36 + 2 * (22050 * min (7 * text.length) 300 / 100) ∧
      readU16 (base64Decode r.audioBase64) 20 = 1 ∧
      readU16 (base64Decode r.audioBase64) 22 = 1 ∧
      readU32 (base64Decode r.audioBase64) 24 = 22050 ∧
      readU16 (base64Decode r.audioBase64) 34 = 16 ∧
      readU32 (base64Decode r.audioBase64) 40 =
        2 * (22050 * min (7 * text.length) 300 / 100) := by
  have hrt : base64Decode (base64Encode (ttsWavBytes text.length sampleVal)) =
      ttsWavBytes text.length sampleVal :=
    base64_roundtrip _ (ttsWavBytes_lt _ _)
  have hn := ttsSamples_le text.length
  refine ⟨⟨base64Encode (ttsWavBytes text.length sampleVal), text, "web_speech_api"⟩,
    by simp [postTextToSpeech, h], hrt, ?_, ?_, ?_, ?_, ?_, ?_, ?_, ?_, ?_⟩ <;>
    rw [hrt]
  · rw [ttsWavBytes_length]
    rfl
  · rw [ttsWavBytes]
    exact take4_wav _ _
  · rw [ttsWavBytes]
    exact drop8_take4_wav _ _
  · rw [ttsWavBytes, readU32_wav_4 _ _ hn]
    rfl
  · rw [ttsWavBytes]
    exact readU16_wav_20 _ _
  · rw [ttsWavBytes]
    exact readU16_wav_22 _ _
  · rw [ttsWavBytes]
    exact readU32_wav_24 _ _
  · rw [ttsWavBytes]
    exact readU16_wav_34 _ _
  · rw [ttsWavBytes, readU32_wav_40 _ _ hn]
    rfl

/-- Witness for C4 at the one-character text "H" and the zero sample
function. -/
theorem tts_wav_shape_witness :
    ∃ r, postTextToSpeech "H" (fun _ => (0 : Int)) = .ok r ∧
      base64Decode r.audioBase64 = ttsWavBytes ("H" : String).length (fun _ => (0 : Int)) ∧
      (base64Decode r.audioBase64).length =
        44 + 2 * (22050 * min (7 * ("H" : String).length) 300 / 100) ∧
      (base64Decode r.audioBase64).take 4 = strBytes "RIFF" ∧
      ((base64Decode r.audioBase64).drop 8).take 4 = strBytes "WAVE" ∧
      readU32 (base64Decode r.audioBase64) 4 =
        36 + 2 * (22050 * min (7 * ("H" : String).length) 300 / 100) ∧
      readU16 (base64Decode r.audioBase64) 20 = 1 ∧
      readU16 (base64Decode r.audioBase64) 22 = 1 ∧
      readU32 (base64Decode r.audioBase64) 24 = 22050 ∧
      readU16 (base64Decode r.audioBase64) 34 = 16 ∧
      readU32 (base64Decode r.audioBase64) 40 =
        2 * (22050 * min (7 * ("H" : String).length) 300 / 100) :=
  tts_wav_shape "H" (fun _ => (0 : Int)) (by decide)

/-! ## No-speech retry logic (`WebSpeechProcessor` in the speech
processor component, and `AudioProcessor.initializeSpeechRecognition`) -/

/-- Events relevant to the `WebSpeechProcessor` retry counter:
recognition errors, results and session starts. -/
inductive WSEvent where
  | noSpeech : WSEvent
  | otherError : String → WSEvent
  | finalResult : WSEvent
  | interimResult : WSEvent
  | started : WSEvent
deriving Repr, DecidableEq

/-- Actions emitted by the recognition handlers: scheduling a restart
(`setTimeout` delay in ms), surfacing an error string to the user, or
emitting a transcript (final?). -/
inductive RecAction where
  | scheduleRestart : Nat → RecAction
  | surfaceError : String → RecAction
  | emitTranscript : Bool → RecAction
deriving Repr, DecidableEq

/-- `maxRetries` of `WebSpeechProcessor`. -/
def maxRetries : Nat := 3

/-- The handler-visible state of `WebSpeechProcessor`:
`retryCountRef.current` and the `isListening` prop. -/
structure WSState where
  retryCount : Nat
  isListening : Bool
deriving Repr, DecidableEq

/-- One step of the `WebSpeechProcessor` recognition handlers
(from the component source): a no-speech error while listening with
`retryCount < maxRetries` increments the counter and schedules a
restart after 1000 ms; otherwise, once `retryCount ≥ maxRetries`, it
surfaces the no-speech error message and resets the counter; the other
error kinds surface their mapped messages; a final result emits the
transcript and resets the counter; `onstart` resets the counter. -/
def wsStep (s : WSState) (e : WSEvent) : WSState × List RecAction :=
  match e with
  | .noSpeech =>
      if s.isListening ∧ s.retryCount < maxRetries then
        ({ s with retryCount := s.retryCount + 1 }, [.scheduleRestart 1000])
      else if s.retryCount ≥ maxRetries then
        ({ s with retryCount := 0 },
         [.surfaceError "No speech detected. Please speak clearly and ensure your microphone is working."])
      else (s, [])
  | .otherError err =>
      (s, [.surfaceError (
        if err = "audio-capture" then
          "Microphone error. Please check your microphone connection and try again."
        else if err = "not-allowed" then
          "Microphone access denied. Please allow microphone access and try again."
        else if err = "network" then
          "Network error. Please check your internet connection."
        else "Speech recognition error: " ++ err)])
  | .finalResult => ({ s with retryCount := 0 }, [.emitTranscript true])
  | .interimResult => (s, [.emitTranscript false])
  | .started => ({ s with retryCount := 0 }, [])

/-- Run the `WebSpeechProcessor` handlers over an event trace,
collecting the emitted actions. -/
def wsRun (s : WSState) : List WSEvent → WSState × List RecAction
  | [] => (s, [])
  | e :: es =>
      let step := wsStep s e
      let rest := wsRun step.1 es
      (rest.1, step.2 ++ rest.2)

/-- The `AudioProcessor` `onerror` handler
(`src/services/AudioProcessor.ts`): every error is surfaced to the
`onError` handler, and a no-speech error while listening additionally
schedules a restart after 1000 ms; there is no retry counter. -/
def apOnError (isListening : Bool) (err : String) : List RecAction :=
  .surfaceError err ::
    (if err = "no-speech" ∧ isListening then [.scheduleRestart 1000] else [])

/-- The number of restarts scheduled in an action list. -/
def countRestarts (acts : List RecAction) : Nat :=
  acts.countP (fun a => match a with | .scheduleRestart _ => true | _ => false)

/-- The number of errors surfaced in an action list. -/
def countSurfacedErrors (acts : List RecAction) : Nat :=
  acts.countP (fun a => match a with | .surfaceError _ => true | _ => false)

/-- C5 (counterexample): `AudioProcessor` has no retry cap: four
consecutive no-speech errors while listening, with no intervening
successful recognition, each schedule a restart — more than the claimed
cap of 3 — and the handler never replaces the restart by an error. -/
theorem no_speech_cap_counterexample :
    countRestarts ((List.replicate 4 "no-speech").flatMap (apOnError true)) = 4 := by
  decide

/-- C5 (amended): restarts scheduled on no-speech always use the fixed
1000 ms delay (in both `WebSpeechProcessor` and `AudioProcessor`); in
`WebSpeechProcessor`, a run of consecutive no-speech errors from a
listening state with a fresh counter schedules exactly `k ≤ 3` restarts
and surfaces no error, and on the fourth consecutive no-speech error the
handler surfaces the error instead of scheduling a fourth restart;
`AudioProcessor` has no such cap. -/
theorem ws_retry_cap (k : Nat) (hk : k ≤ 3) :
    (countRestarts (wsRun ⟨0, true⟩ (List.replicate k .noSpeech)).2 = k ∧
     countSurfacedErrors (wsRun ⟨0, true⟩ (List.replicate k .noSpeech)).2 = 0) ∧
    (countRestarts (wsRun ⟨0, true⟩ (List.replicate 4 .noSpeech)).2 = 3 ∧
     countSurfacedErrors (wsRun ⟨0, true⟩ (List.replicate 4 .noSpeech)).2 = 1) ∧
    (∀ s e d, RecAction.scheduleRestart d ∈ (wsStep s e).2 → d = 1000) ∧
    (∀ b err d, RecAction.scheduleRestart d ∈ apOnError b err → d = 1000) := by
  refine ⟨?_, by decide, ?_, ?_⟩
  · interval_cases k <;> exact ⟨by decide, by decide⟩
  · intro s e d hd
    cases e with
    | noSpeech =>
      simp only [wsStep] at hd
      split at hd
      · simp at hd
        omega
      · split at hd <;> simp at hd
    | otherError err =>
      simp [wsStep] at hd
    | finalResult => simp [wsStep] at hd
    | interimResult => simp [wsStep] at hd
    | started => simp [wsStep] at hd
  · intro b err d hd
    simp only [apOnError, List.mem_cons] at hd
    rcases hd with hd | hd
    · cases hd
    · split at hd <;> simp at hd
      omega

/-- Witness for C5 (amended) at `k = 2`. -/
theorem ws_retry_cap_witness :
    (countRestarts (wsRun ⟨0, true⟩ (List.replicate 2 .noSpeech)).2 = 2 ∧
     countSurfacedErrors (wsRun ⟨0, true⟩ (List.replicate 2 .noSpeech)).2 = 0) ∧
    (countRestarts (wsRun ⟨0, true⟩ (List.replicate 4 .noSpeech)).2 = 3 ∧
     countSurfacedErrors (wsRun ⟨0, true⟩ (List.replicate 4 .noSpeech)).2 = 1) ∧
    (∀ s e d, RecAction.scheduleRestart d ∈ (wsStep s e).2 → d = 1000) ∧
    (∀ b err d, RecAction.scheduleRestart d ∈ apOnError b err → d = 1000) :=
  ws_retry_cap 2 (by decide)

/-! ## Teardown (`AudioProcessor.cleanup` and
`RealTimeAudioProcessor.cleanup`) -/

/-- The handle state of an `AudioProcessor` instance.  Resource handles
are modelled as optional ids; `pendingRestarts` counts no-speech restart
timers that have been scheduled by the `onerror` handler and have not yet
fired (the source stores no handle for them, so nothing can clear them). -/
structure APState where
  audioContext : Option Nat
  mediaStream : Option Nat
  analyser : Option Nat
  animationId : Option Nat
  recognition : Option Nat
  currentUtterance : Option Nat
  isListening : Bool
  pendingRestarts : Nat
deriving Repr, DecidableEq

/-- `AudioProcessor.stopListening` as far as state goes: clears the
listening flag and (via `stopAudioMonitoring`) cancels the animation
frame. -/
def apStopListening (s : APState) : APState :=
  { s with isListening := false, animationId := none }

/-- `AudioProcessor.cleanup`: `stopListening`, `stopSpeaking` (clears the
current utterance), stops the media-stream tracks and nulls the stream,
closes and nulls the audio context, and nulls the analyser and the
recognition object.  The pending no-speech restart timers are untouched. -/
def apCleanup (s : APState) : APState :=
  { apStopListening s with
      currentUtterance := none,
      mediaStream := none,
      audioContext := none,
      analyser := none,
      recognition := none }

/-- A scheduled no-speech restart timer firing: the callback invokes
`recognition.start()` only when `isListening` still holds.  Returns the
new state and whether a restart was attempted. -/
def apTimerFire (s : APState) : APState × Bool :=
  ({ s with pendingRestarts := s.pendingRestarts - 1 }, s.isListening)

/-- The handle state of a `RealTimeAudioProcessor` instance
(`src/lib/real-time-audio.ts`). -/
structure RTAPState where
  ws : Option Nat
  audioContext : Option Nat
  mediaStream : Option Nat
  processor : Option Nat
  isRecording : Bool
  processingInterval : Option Nat
deriving Repr, DecidableEq

/-- `RealTimeAudioProcessor.cleanup`: clears the recording flag,
cancels and nulls the processing interval, disconnects and nulls the
script processor, stops and nulls the media stream, closes and nulls the
audio context, and closes and nulls the websocket. -/
def rtapCleanup (_s : RTAPState) : RTAPState :=
  { ws := none, audioContext := none, mediaStream := none, processor := none,
    isRecording := false, processingInterval := none }

/-- C8 (counterexample): `AudioProcessor.cleanup` does not cancel a
pending no-speech restart timer: starting from a state with one pending
restart timer, the timer is still pending after `cleanup()` — the claim
that "any pending restart timer … has been cancelled" fails. -/
theorem cleanup_timer_counterexample :
    (apCleanup ⟨some 0, some 0, some 0, some 0, some 0, some 0, true, 1⟩).pendingRestarts =
      1 := by
  decide

/-- C8 (amended): after `cleanup()` every held handle is torn down: for
`AudioProcessor` the media stream, audio context, analyser, recognition
and current utterance are null, the listening flag is false and the
animation frame is cancelled; for `RealTimeAudioProcessor` the
websocket, audio context, media stream and processor are null, the
recording flag is false and the processing interval is cancelled.  A
pending no-speech restart timer is not cancelled, but firing it after
cleanup attempts no restart because the listening flag is false. -/
theorem cleanup_tears_down (s : APState) (t : RTAPState) :
    (apCleanup s).mediaStream = none ∧
    (apCleanup s).audioContext = none ∧
    (apCleanup s).analyser = none ∧
    (apCleanup s).recognition = none ∧
    (apCleanup s).currentUtterance = none ∧
    (apCleanup s).isListening = false ∧
    (apCleanup s).animationId = none ∧
    (apTimerFire (apCleanup s)).2 = false ∧
    (rtapCleanup t).ws = none ∧
    (rtapCleanup t).audioContext = none ∧
    (rtapCleanup t).mediaStream = none ∧
    (rtapCleanup t).processor = none ∧
    (rtapCleanup t).isRecording = false ∧
    (rtapCleanup t).processingInterval = none := by
  refine ⟨rfl, rfl, rfl, rfl, rfl, rfl, rfl, rfl, rfl, rfl, rfl, rfl, rfl, rfl⟩

end Chatbot
